import Mathlib

/-!
Verification of the session-scoped real-time message relay of the
cotomata repository (`backend/src/server.js`, plus the variant relay
kept in the repository with the Supabase persistence hooks).

The relay keeps an in-memory table `activeSessions` mapping a session id
to its Redis channel list and session type, a Redis subscriber whose
per-channel listeners are closures capturing the owning session id, and
socket.io rooms keyed by session id.  We embed that state as explicit
association lists, the socket.io event handlers as pure state
transformers, and Redis publications / socket.io emissions as explicit
output lists.
-/

namespace Cotomata

/-- Channel list of `getAllowedChannels` in `backend/src/server.js`:
`'Human/AI'` sessions get the two `Scene` channels, the `Human:Jack` /
`Jack:Human` pair and the `Agent:Runtime` / `Runtime:Agent` pair; every
other session type gets only the last four. -/
def getAllowedChannels (sessionId sessionType : String) : List String :=
  if sessionType = "Human/AI" then
    [ "Scene:Jack:" ++ sessionId,
      "Scene:Jane:" ++ sessionId,
      "Human:Jack:" ++ sessionId,
      "Jack:Human:" ++ sessionId,
      "Agent:Runtime:" ++ sessionId,
      "Runtime:Agent:" ++ sessionId ]
  else
    [ "Human:Jack:" ++ sessionId,
      "Jack:Human:" ++ sessionId,
      "Agent:Runtime:" ++ sessionId,
      "Runtime:Agent:" ++ sessionId ]

/-- Channel list of `getAllowedChannels` in the variant server source
(the file with the Supabase hooks): `'Human/AI'` sessions additionally
get the `Jack:Jane` / `Jane:Jack` agent-to-agent pair, for 8 channels. -/
def getAllowedChannelsVariant (sessionId sessionType : String) : List String :=
  if sessionType = "Human/AI" then
    [ "Jack:Jane:" ++ sessionId,
      "Jane:Jack:" ++ sessionId,
      "Scene:Jack:" ++ sessionId,
      "Scene:Jane:" ++ sessionId,
      "Human:Jack:" ++ sessionId,
      "Jack:Human:" ++ sessionId,
      "Agent:Runtime:" ++ sessionId,
      "Runtime:Agent:" ++ sessionId ]
  else
    [ "Human:Jack:" ++ sessionId,
      "Jack:Human:" ++ sessionId,
      "Agent:Runtime:" ++ sessionId,
      "Runtime:Agent:" ++ sessionId ]

/-- Strip a fixed prefix from a character list, returning the remainder
when the prefix matches. -/
def stripPre : List Char → List Char → Option (List Char)
  | [], cs => some cs
  | _ :: _, [] => none
  | p :: ps, c :: cs => if p = c then stripPre ps cs else none

/-- Recover the session id embedded in a channel name produced by
`getAllowedChannels`, by stripping whichever of the six fixed channel
prefixes matches. -/
def extractSid (cs : List Char) : Option (List Char) :=
  match stripPre ("Scene:Jack:").data cs with
  | some r => some r
  | none =>
  match stripPre ("Scene:Jane:").data cs with
  | some r => some r
  | none =>
  match stripPre ("Human:Jack:").data cs with
  | some r => some r
  | none =>
  match stripPre ("Jack:Human:").data cs with
  | some r => some r
  | none =>
  match stripPre ("Agent:Runtime:").data cs with
  | some r => some r
  | none => stripPre ("Runtime:Agent:").data cs


/-- One entry of the `activeSessions` table: the channel list computed at
creation time and the session type. -/
structure SessionEntry where
  channels : List String
  sessionType : String
deriving DecidableEq

/-- The bus payload envelope built by the outbound handlers and
JSON-serialized as the Redis message body. -/
structure AgentAction where
  agent_name : String
  action_type : String
  argument : String
  path : String
  data_type : String
deriving DecidableEq

/-- Payload of the `new_message` socket.io event emitted by the Redis
subscribe listener; the first field is called `channels` in the source
because the listener parameter shadows the outer channel list. -/
structure NewMessageEv where
  channels : String
  message : String
deriving DecidableEq

/-- Relay state: the `activeSessions` table (keyed association list, most
recent binding first), the Redis subscriber's listeners (channel name
paired with the session id captured by the listener closure), and the
socket.io room memberships as (socket id, room id) pairs. -/
structure ServerState where
  activeSessions : List (String × SessionEntry)
  subscriptions : List (String × String)
  rooms : List (String × String)
deriving DecidableEq

/-- State of the relay at startup: no sessions, no subscriptions, no
room memberships. -/
def initState : ServerState := ⟨[], [], []⟩

/-- Lookup of `activeSessions[sid]`. -/
def lookupSession (sid : String) : List (String × SessionEntry) → Option SessionEntry
  | [] => none
  | e :: rest => if e.1 = sid then some e.2 else lookupSession sid rest

/-- The `create_session` handler: store `{channels, sessionType}` under the
fresh uuid, subscribe every channel with a listener that captures the
session id, answer the callback with the id, then `socket.join(sessionId)`. -/
def create_session (st : ServerState) (sockId sid sessionType : String) : ServerState :=
  let channels := getAllowedChannels sid sessionType
  { activeSessions := (sid, ⟨channels, sessionType⟩) :: st.activeSessions
    subscriptions := channels.map (fun c => (c, sid)) ++ st.subscriptions
    rooms := (sockId, sid) :: st.rooms }

/-- The `join_session` handler: if the id is not in `activeSessions`,
answer `success: false` and change nothing; otherwise `socket.join` and
answer `success: true`. -/
def join_session (st : ServerState) (sockId sid : String) : ServerState × Bool :=
  match lookupSession sid st.activeSessions with
  | none => (st, false)
  | some _ => ({ st with rooms := (sockId, sid) :: st.rooms }, true)

/-- Result of `kill_session`: the new state, the callback's success flag,
and the sockets to which `session_terminated` was emitted. -/
structure KillResult where
  state : ServerState
  success : Bool
  notified : List String
deriving DecidableEq

/-- Effect of `delete activeSessions[sid]` on the table. -/
def removeSession (sid : String) : List (String × SessionEntry) → List (String × SessionEntry)
  | [] => []
  | e :: rest =>
      if e.1 = sid then removeSession sid rest else e :: removeSession sid rest

/-- Effect of `subscriber.unsubscribe(channels)`: every listener on one of
the given channels is removed. -/
def removeChannels (chans : List String) : List (String × String) → List (String × String)
  | [] => []
  | p :: rest =>
      if p.1 ∈ chans then removeChannels chans rest else p :: removeChannels chans rest

/-- The `kill_session` handler: if the id is unknown answer
`success: false`; otherwise unsubscribe the entry's channels, emit
`session_terminated` to the session's room, then delete the entry. -/
def kill_session (st : ServerState) (sid : String) : KillResult :=
  match lookupSession sid st.activeSessions with
  | none => ⟨st, false, []⟩
  | some entry =>
      ⟨{ activeSessions := removeSession sid st.activeSessions
         subscriptions := removeChannels entry.channels st.subscriptions
         rooms := st.rooms },
       true,
       (st.rooms.filter (fun r => r.2 = sid)).map (fun r => r.1)⟩

/-- Redis publications performed by the `chat_message` handler: guarded
only by the truthiness of `sessionId` (the empty string models a
missing/falsy id); the `activeSessions` table is not consulted. -/
def chat_message (sessionId message : String) : List (String × AgentAction) :=
  if sessionId = "" then []
  else [("Human:Jack:" ++ sessionId,
         ⟨"user", "speak", message, "", "agent_action"⟩)]

/-- Redis publications performed by the `save_file` handler. -/
def save_file (sessionId path content : String) : List (String × AgentAction) :=
  if sessionId = "" then []
  else [("Agent:Runtime:" ++ sessionId,
         ⟨"user", "write", content, path, "agent_action"⟩)]

/-- Redis publications performed by the `terminal_command` handler. -/
def terminal_command (sessionId command : String) : List (String × AgentAction) :=
  if sessionId = "" then []
  else [("Agent:Runtime:" ++ sessionId,
         ⟨"user", "run", command, "", "agent_action"⟩)]

/-- Inbound fan-out: a Redis message `m` arriving on channel `c` fires
every listener registered for `c`; each listener emits `new_message`
(carrying the raw payload, unparsed) to every socket in the room of the
session id it captured.  Returns the (socket, event) deliveries. -/
def deliver (st : ServerState) (c m : String) : List (String × NewMessageEv) :=
  (st.subscriptions.filter (fun p => p.1 = c)).flatMap
    (fun p => (st.rooms.filter (fun r => r.2 = p.2)).map (fun r => (r.1, ⟨c, m⟩)))

/-- The set of channels currently subscribed on the bus. -/
def subscribedChannels (st : ServerState) : List String :=
  st.subscriptions.map Prod.fst

/-- One transition of the relay: a `create_session` with a fresh uuid, a
`join_session`, or a `kill_session`. -/
inductive Step : ServerState → ServerState → Prop where
  | create (st : ServerState) (sockId sid ty : String)
      (fresh : lookupSession sid st.activeSessions = none) :
      Step st (create_session st sockId sid ty)
  | join (st : ServerState) (sockId sid : String) :
      Step st (join_session st sockId sid).1
  | kill (st : ServerState) (sid : String) :
      Step st (kill_session st sid).state

/-- States reachable from startup by relay transitions. -/
inductive Reachable : ServerState → Prop where
  | init : Reachable initState
  | step {st st' : ServerState} : Reachable st → Step st st' → Reachable st'

/-- Registry/bus coherence: every registry entry holds exactly the
channel list computed from its id and type, each such channel is
subscribed with a listener tagged by that id, and every listener's tag
points back to a registry entry owning its channel. -/
def Inv (st : ServerState) : Prop :=
  (∀ sid e, lookupSession sid st.activeSessions = some e →
      e.channels = getAllowedChannels sid e.sessionType) ∧
  (∀ sid e, lookupSession sid st.activeSessions = some e →
      ∀ c, c ∈ e.channels → (c, sid) ∈ st.subscriptions) ∧
  (∀ c tag, (c, tag) ∈ st.subscriptions →
      ∃ e, lookupSession tag st.activeSessions = some e ∧ c ∈ e.channels)

theorem stripPre_self (p : List Char) (cs : List Char) :
    stripPre p (p ++ cs) = some cs := by
  induction p with
  | nil => rfl
  | cons a as ih => simp [stripPre, ih]

theorem data_append (s t : String) : (s ++ t).data = s.data ++ t.data := rfl

theorem extractSid_sceneJack (s : String) :
    extractSid (("Scene:Jack:" ++ s).data) = some s.data := by
  rw [data_append]; simp [extractSid, stripPre, stripPre_self]

theorem extractSid_sceneJane (s : String) :
    extractSid (("Scene:Jane:" ++ s).data) = some s.data := by
  rw [data_append]; simp [extractSid, stripPre, stripPre_self]

theorem extractSid_humanJack (s : String) :
    extractSid (("Human:Jack:" ++ s).data) = some s.data := by
  rw [data_append]; simp [extractSid, stripPre, stripPre_self]

theorem extractSid_jackHuman (s : String) :
    extractSid (("Jack:Human:" ++ s).data) = some s.data := by
  rw [data_append]; simp [extractSid, stripPre, stripPre_self]

theorem extractSid_agentRuntime (s : String) :
    extractSid (("Agent:Runtime:" ++ s).data) = some s.data := by
  rw [data_append]; simp [extractSid, stripPre, stripPre_self]

theorem extractSid_runtimeAgent (s : String) :
    extractSid (("Runtime:Agent:" ++ s).data) = some s.data := by
  rw [data_append]; simp [extractSid, stripPre, stripPre_self]

/-- Every channel name built by `getAllowedChannels` determines the
session id it was built from. -/
theorem extractSid_of_mem_getAllowedChannels (c : String) (sid ty : String)
    (h : c ∈ getAllowedChannels sid ty) : extractSid c.data = some sid.data := by
  unfold getAllowedChannels at h
  split at h
  · simp only [List.mem_cons, List.not_mem_nil, or_false] at h
    rcases h with rfl | rfl | rfl | rfl | rfl | rfl
    exacts [extractSid_sceneJack sid, extractSid_sceneJane sid, extractSid_humanJack sid,
      extractSid_jackHuman sid, extractSid_agentRuntime sid, extractSid_runtimeAgent sid]
  · simp only [List.mem_cons, List.not_mem_nil, or_false] at h
    rcases h with rfl | rfl | rfl | rfl
    exacts [extractSid_humanJack sid, extractSid_jackHuman sid,
      extractSid_agentRuntime sid, extractSid_runtimeAgent sid]

/-- A channel name never belongs to two different sessions. -/
theorem channel_sid_inj (c : String) (sid1 ty1 sid2 ty2 : String)
    (h1 : c ∈ getAllowedChannels sid1 ty1) (h2 : c ∈ getAllowedChannels sid2 ty2) :
    sid1 = sid2 := by
  have e1 := extractSid_of_mem_getAllowedChannels c sid1 ty1 h1
  have e2 := extractSid_of_mem_getAllowedChannels c sid2 ty2 h2
  rw [e1] at e2
  exact String.ext (Option.some.inj e2)

theorem lookupSession_cons (k : String) (v : SessionEntry)
    (l : List (String × SessionEntry)) (t : String) :
    lookupSession t ((k, v) :: l) = if k = t then some v else lookupSession t l := rfl

theorem lookupSession_removeSession (t sid : String) (l : List (String × SessionEntry)) :
    lookupSession t (removeSession sid l) =
      if t = sid then none else lookupSession t l := by
  induction l with
  | nil => simp [lookupSession, removeSession]
  | cons a l ih =>
    obtain ⟨k, v⟩ := a
    rw [removeSession, lookupSession_cons]
    by_cases hk : k = sid
    · rw [if_pos hk, ih]
      by_cases ht : t = sid
      · rw [if_pos ht, if_pos ht]
      · have hkt : ¬ (k = t) := fun h => ht (h ▸ hk)
        rw [if_neg ht, if_neg ht, if_neg hkt]
    · rw [if_neg hk, lookupSession_cons]
      by_cases hkt : k = t
      · have ht : ¬ (t = sid) := fun h => hk (hkt.trans h)
        rw [if_pos hkt, if_neg ht, if_pos hkt]
      · rw [if_neg hkt, ih]
        by_cases ht : t = sid
        · rw [if_pos ht, if_pos ht]
        · rw [if_neg ht, if_neg ht, if_neg hkt]

theorem mem_removeChannels (a : String × String) (chans : List String)
    (l : List (String × String)) :
    a ∈ removeChannels chans l ↔ a ∈ l ∧ a.1 ∉ chans := by
  induction l with
  | nil => simp [removeChannels]
  | cons p rest ih =>
    by_cases hp : p.1 ∈ chans
    · rw [removeChannels, if_pos hp, ih]
      constructor
      · rintro ⟨ha, hna⟩
        exact ⟨List.mem_cons_of_mem _ ha, hna⟩
      · rintro ⟨ha, hna⟩
        rcases List.mem_cons.mp ha with rfl | ha
        · exact absurd hp hna
        · exact ⟨ha, hna⟩
    · rw [removeChannels, if_neg hp]
      constructor
      · intro ha
        rcases List.mem_cons.mp ha with rfl | ha
        · exact ⟨List.mem_cons_self _ _, hp⟩
        · rcases ih.mp ha with ⟨h1, h2⟩
          exact ⟨List.mem_cons_of_mem _ h1, h2⟩
      · rintro ⟨ha, hna⟩
        rcases List.mem_cons.mp ha with rfl | ha
        · exact List.mem_cons_self _ _
        · exact List.mem_cons_of_mem _ (ih.mpr ⟨ha, hna⟩)

theorem inv_init : Inv initState := by
  refine ⟨?_, ?_, ?_⟩ <;> intro sid e h <;> simp [initState, lookupSession] at h

theorem inv_create (st : ServerState) (sockId sid ty : String)
    (fresh : lookupSession sid st.activeSessions = none) (hInv : Inv st) :
    Inv (create_session st sockId sid ty) := by
  obtain ⟨h1, h2, h3⟩ := hInv
  refine ⟨?_, ?_, ?_⟩
  · intro sid' e hl
    rw [create_session] at hl
    rw [lookupSession_cons] at hl
    by_cases heq : sid = sid'
    · rw [if_pos heq] at hl
      obtain rfl := Option.some.inj hl
      subst heq
      rfl
    · rw [if_neg heq] at hl
      exact h1 sid' e hl
  · intro sid' e hl c hc
    rw [create_session] at hl
    rw [lookupSession_cons] at hl
    show (c, sid') ∈ (getAllowedChannels sid ty).map (fun c => (c, sid)) ++ st.subscriptions
    by_cases heq : sid = sid'
    · rw [if_pos heq] at hl
      obtain rfl := Option.some.inj hl
      subst heq
      exact List.mem_append_left _ (List.mem_map.mpr ⟨c, hc, rfl⟩)
    · rw [if_neg heq] at hl
      exact List.mem_append_right _ (h2 sid' e hl c hc)
  · intro c tag hmem
    have hmem' : (c, tag) ∈ (getAllowedChannels sid ty).map (fun c => (c, sid)) ++
        st.subscriptions := hmem
    rcases List.mem_append.mp hmem' with hnew | hold
    · rcases List.mem_map.mp hnew with ⟨x, hx, hpair⟩
      cases hpair
      refine ⟨⟨getAllowedChannels sid ty, ty⟩, ?_, hx⟩
      show lookupSession sid ((sid, _) :: st.activeSessions) = _
      rw [lookupSession_cons, if_pos rfl]
    · obtain ⟨e, hl, hc⟩ := h3 c tag hold
      refine ⟨e, ?_, hc⟩
      have hne : sid ≠ tag := by
        intro h
        subst h
        rw [fresh] at hl
        exact Option.noConfusion hl
      show lookupSession tag ((sid, _) :: st.activeSessions) = some e
      rw [lookupSession_cons, if_neg hne]
      exact hl

theorem inv_join (st : ServerState) (sockId sid : String) (hInv : Inv st) :
    Inv (join_session st sockId sid).1 := by
  unfold join_session
  cases h : lookupSession sid st.activeSessions with
  | none => exact hInv
  | some e => exact hInv

theorem inv_kill (st : ServerState) (sid : String) (hInv : Inv st) :
    Inv (kill_session st sid).state := by
  obtain ⟨h1, h2, h3⟩ := hInv
  unfold kill_session
  cases hl : lookupSession sid st.activeSessions with
  | none => exact ⟨h1, h2, h3⟩
  | some entry =>
    have hch : entry.channels = getAllowedChannels sid entry.sessionType := h1 sid entry hl
    refine ⟨?_, ?_, ?_⟩
    · intro sid' e hle
      rw [lookupSession_removeSession] at hle
      by_cases hs : sid' = sid
      · rw [if_pos hs] at hle; exact Option.noConfusion hle
      · rw [if_neg hs] at hle; exact h1 sid' e hle
    · intro sid' e hle c hc
      rw [lookupSession_removeSession] at hle
      by_cases hs : sid' = sid
      · rw [if_pos hs] at hle; exact Option.noConfusion hle
      · rw [if_neg hs] at hle
        have hsub : (c, sid') ∈ st.subscriptions := h2 sid' e hle c hc
        refine (mem_removeChannels _ _ _).mpr ⟨hsub, ?_⟩
        intro hcent
        have he : e.channels = getAllowedChannels sid' e.sessionType := h1 sid' e hle
        exact hs (channel_sid_inj c sid' e.sessionType sid entry.sessionType
          (he ▸ hc) (hch ▸ hcent))
    · intro c tag hmem
      obtain ⟨hmem', hnc⟩ := (mem_removeChannels _ _ _).mp hmem
      obtain ⟨e, hle, hce⟩ := h3 c tag hmem'
      have htag : ¬ (tag = sid) := by
        intro h
        subst h
        rw [hl] at hle
        obtain rfl := Option.some.inj hle
        exact hnc hce
      refine ⟨e, ?_, hce⟩
      rw [lookupSession_removeSession, if_neg htag]
      exact hle

theorem reachable_inv {st : ServerState} (h : Reachable st) : Inv st := by
  induction h with
  | init => exact inv_init
  | step hr hs ih =>
    cases hs with
    | create sockId sid ty fresh => exact inv_create _ sockId sid ty fresh ih
    | join sockId sid => exact inv_join _ sockId sid ih
    | kill sid => exact inv_kill _ sid ih

/-- Under the invariant, a channel is subscribed with at most one
session-id tag. -/
theorem subscriptions_tag_unique {st : ServerState} (hInv : Inv st)
    {c tag1 tag2 : String} (hm1 : (c, tag1) ∈ st.subscriptions)
    (hm2 : (c, tag2) ∈ st.subscriptions) : tag1 = tag2 := by
  obtain ⟨i1, _, i3⟩ := hInv
  obtain ⟨e1, hl1, hc1⟩ := i3 c tag1 hm1
  obtain ⟨e2, hl2, hc2⟩ := i3 c tag2 hm2
  have he1 := i1 tag1 e1 hl1
  have he2 := i1 tag2 e2 hl2
  exact channel_sid_inj c tag1 e1.sessionType tag2 e2.sessionType
    (he1 ▸ hc1) (he2 ▸ hc2)

/-- Characterization of the inbound fan-out deliveries. -/
theorem mem_deliver (st : ServerState) (c m : String) (sock : String) (ev : NewMessageEv) :
    (sock, ev) ∈ deliver st c m ↔
      (∃ tag, (c, tag) ∈ st.subscriptions ∧ (sock, tag) ∈ st.rooms) ∧ ev = ⟨c, m⟩ := by
  simp only [deliver, List.mem_flatMap, List.mem_filter, List.mem_map, decide_eq_true_eq]
  constructor
  · rintro ⟨p, ⟨hpmem, hpc⟩, r, ⟨hrmem, hrr⟩, heq⟩
    injection heq with h1 h2
    subst h1
    subst h2
    refine ⟨⟨p.2, ?_, ?_⟩, rfl⟩
    · have hp : p = (c, p.2) := by
        obtain ⟨a, b⟩ := p
        simp only at hpc
        rw [hpc]
      rw [← hp]
      exact hpmem
    · have hr' : r = (r.1, p.2) := by
        obtain ⟨a, b⟩ := r
        simp only at hrr
        rw [hrr]
      rw [← hr']
      exact hrmem
  · rintro ⟨⟨tag, hsub, hroom⟩, rfl⟩
    exact ⟨(c, tag), ⟨hsub, rfl⟩, (sock, tag), ⟨hroom, rfl⟩, rfl⟩

/-- C1 (counterexample): in `backend/src/server.js`, `getAllowedChannels`
applied to a `'Human/AI'` (HumanPaired) session returns 6 channel names,
not 8 as the claim states: the `Jack:Jane` / `Jane:Jack` agent-to-agent
pair is absent from that file's channel list. -/
theorem claim1_counterexample :
    (getAllowedChannels "x" "Human/AI").length ≠ 8 ∧
    (getAllowedChannels "x" "Human/AI").length = 6 ∧
    "Jack:Jane:x" ∉ getAllowedChannels "x" "Human/AI" := by
  refine ⟨by decide, by decide, by decide⟩

/-- C1 (amended): for every session id, `getAllowedChannels` of
`backend/src/server.js` returns exactly 6 channels for `'Human/AI'`
(the two Scene channels, the `Human:Jack` pair, and the
`Agent:Runtime`/`Runtime:Agent` pair) while the variant server file
returns the 8 channels the claim lists; both return exactly 4 for any
other session type; and after a successful `create_session` the registry
entry for the id holds exactly that channel list, each channel
subscribed. -/
theorem claim1_amended (sid ty : String) :
    (getAllowedChannels sid "Human/AI").length = 6 ∧
    (getAllowedChannelsVariant sid "Human/AI").length = 8 ∧
    (ty ≠ "Human/AI" →
      (getAllowedChannels sid ty).length = 4 ∧
      (getAllowedChannelsVariant sid ty).length = 4) ∧
    (∀ st sockId,
      lookupSession sid (create_session st sockId sid ty).activeSessions =
        some ⟨getAllowedChannels sid ty, ty⟩ ∧
      ∀ c ∈ getAllowedChannels sid ty,
        (c, sid) ∈ (create_session st sockId sid ty).subscriptions) := by
  refine ⟨?_, ?_, ?_, ?_⟩
  · simp [getAllowedChannels]
  · simp [getAllowedChannelsVariant]
  · intro h
    constructor
    · simp [getAllowedChannels, h]
    · simp [getAllowedChannelsVariant, h]
  · intro st sockId
    constructor
    · show lookupSession sid ((sid, _) :: st.activeSessions) = _
      rw [lookupSession_cons, if_pos rfl]
    · intro c hc
      exact List.mem_append_left _ (List.mem_map.mpr ⟨c, hc, rfl⟩)

/-- C1 (witness): concrete instance of the amended claim. -/
theorem claim1_witness :
    (getAllowedChannels "s1" "solo").length = 4 ∧
    ("Human:Jack:s1", "s1") ∈ (create_session initState "k" "s1" "solo").subscriptions :=
  ⟨((claim1_amended "s1" "solo").2.2.1 (by decide)).1,
   ((claim1_amended "s1" "solo").2.2.2 initState "k").2 "Human:Jack:s1" (by decide)⟩

/-- C2: inbound fan-out isolation.  In every reachable state, if channel
`c` is subscribed with a listener for session `A`, then a bus message on
`c` produces a `new_message` delivery to a socket exactly when that
socket is in `A`'s room — so no connection outside `A`'s member set
(in particular no member of a different session `B` that is not also a
member of `A`) ever receives `A`'s traffic. -/
theorem claim2_fanout_isolation (st : ServerState) (hst : Reachable st)
    (c A m : String) (hsub : (c, A) ∈ st.subscriptions)
    (sock : String) (ev : NewMessageEv) :
    (sock, ev) ∈ deliver st c m ↔ ((sock, A) ∈ st.rooms ∧ ev = ⟨c, m⟩) := by
  have hInv := reachable_inv hst
  rw [mem_deliver]
  constructor
  · rintro ⟨⟨tag, hs, hr⟩, rfl⟩
    exact ⟨(subscriptions_tag_unique hInv hs hsub) ▸ hr, rfl⟩
  · rintro ⟨hr, rfl⟩
    exact ⟨⟨A, hsub, hr⟩, rfl⟩

/-- C2 (witness): concrete fan-out in the state reached by one
`create_session`. -/
theorem claim2_witness :
    ("sock1", (⟨"Human:Jack:A", "hi"⟩ : NewMessageEv)) ∈
      deliver (create_session initState "sock1" "A" "solo") "Human:Jack:A" "hi" :=
  (claim2_fanout_isolation (create_session initState "sock1" "A" "solo")
      (Reachable.step Reachable.init (Step.create initState "sock1" "A" "solo" rfl))
      "Human:Jack:A" "A" "hi" (by decide) "sock1" ⟨"Human:Jack:A", "hi"⟩).mpr
    ⟨by decide, rfl⟩

/-- C3 (counterexample): `chat_message` only checks that `sessionId` is
truthy, not that it names a session in `activeSessions`: with an empty
registry, a `chat_message` for the unregistered id `"ghost"` performs one
bus publication (to `Human:Jack:ghost`), not zero. -/
theorem claim3_counterexample :
    lookupSession "ghost" initState.activeSessions = none ∧
    chat_message "ghost" "hello" ≠ [] := by
  refine ⟨rfl, by decide⟩

/-- C3 (amended): a `chat_message` publishes nothing iff its `sessionId`
is falsy (empty); for any non-empty `sessionId` — registered or not — it
publishes exactly one envelope, and every publication goes to the
session-scoped channel `Human:Jack:<sessionId>`, never to a
global/unscoped channel. -/
theorem claim3_amended (sessionId message : String) :
    (chat_message sessionId message = [] ↔ sessionId = "") ∧
    (∀ p ∈ chat_message sessionId message, p.1 = "Human:Jack:" ++ sessionId) := by
  constructor
  · unfold chat_message
    by_cases h : sessionId = ""
    · simp [h]
    · simp [h]
  · intro p hp
    unfold chat_message at hp
    by_cases h : sessionId = ""
    · rw [if_pos h] at hp
      exact absurd hp (List.not_mem_nil p)
    · rw [if_neg h] at hp
      rcases List.mem_cons.mp hp with rfl | hp
      · rfl
      · exact absurd hp (List.not_mem_nil p)

/-- C3 (witness): concrete instance of the amended claim. -/
theorem claim3_witness :
    ("Human:Jack:ghost",
      (⟨"user", "speak", "hello", "", "agent_action"⟩ : AgentAction)).1 =
      "Human:Jack:" ++ "ghost" :=
  (claim3_amended "ghost" "hello").2 _ (by decide)

/-- C4: for every accepted intent (non-falsy session id `s`),
`chat_message` publishes exactly one `speak` envelope on
`Human:Jack:<s>`, `save_file` exactly one `write` envelope (argument =
content, path = path) on `Agent:Runtime:<s>`, and `terminal_command`
exactly one `run` envelope on `Agent:Runtime:<s>`; the singleton
publication lists show no other channel is published to. -/
theorem claim4_envelopes (s m p c k : String) (hs : s ≠ "") :
    chat_message s m =
      [("Human:Jack:" ++ s, ⟨"user", "speak", m, "", "agent_action"⟩)] ∧
    save_file s p c =
      [("Agent:Runtime:" ++ s, ⟨"user", "write", c, p, "agent_action"⟩)] ∧
    terminal_command s k =
      [("Agent:Runtime:" ++ s, ⟨"user", "run", k, "", "agent_action"⟩)] := by
  unfold chat_message save_file terminal_command
  simp [hs]

/-- C4 (witness): concrete instance. -/
theorem claim4_witness :
    chat_message "s1" "hello" =
      [("Human:Jack:" ++ "s1", ⟨"user", "speak", "hello", "", "agent_action"⟩)] :=
  (claim4_envelopes "s1" "hello" "f.txt" "content" "ls" (by decide)).1

/-- C5: registry/subscription coherence at every reachable state: the
channels of every registry entry are subscribed on the bus; a session
all of whose channels are subscribed is present in the registry; and
every subscribed channel is owned by some registry entry (no orphaned
subscriptions).  `kill_session` unsubscribes before deleting and
`create_session` subscribes everything it registers, so the equivalence
is preserved by every operation. -/
theorem claim5_registry_iff_subscribed (st : ServerState) (hst : Reachable st) :
    (∀ sid e, lookupSession sid st.activeSessions = some e →
        ∀ c ∈ e.channels, c ∈ subscribedChannels st) ∧
    (∀ sid ty, (∀ c ∈ getAllowedChannels sid ty, c ∈ subscribedChannels st) →
        ∃ e, lookupSession sid st.activeSessions = some e) ∧
    (∀ c, c ∈ subscribedChannels st →
        ∃ sid e, lookupSession sid st.activeSessions = some e ∧ c ∈ e.channels) := by
  obtain ⟨i1, i2, i3⟩ := reachable_inv hst
  refine ⟨?_, ?_, ?_⟩
  · intro sid e hl c hc
    exact List.mem_map.mpr ⟨(c, sid), i2 sid e hl c hc, rfl⟩
  · intro sid ty hall
    have hc : "Human:Jack:" ++ sid ∈ getAllowedChannels sid ty := by
      unfold getAllowedChannels
      split <;> simp
    obtain ⟨⟨c', tag⟩, hmem, heq⟩ := List.mem_map.mp (hall _ hc)
    simp only at heq
    subst heq
    obtain ⟨e, hle, hce⟩ := i3 _ tag hmem
    have hty := i1 tag e hle
    have hst' : sid = tag :=
      channel_sid_inj _ sid ty tag e.sessionType hc (hty ▸ hce)
    subst hst'
    exact ⟨e, hle⟩
  · intro c hcm
    obtain ⟨⟨c', tag⟩, hmem, heq⟩ := List.mem_map.mp hcm
    simp only at heq
    subst heq
    obtain ⟨e, hle, hce⟩ := i3 _ tag hmem
    exact ⟨tag, e, hle, hce⟩

/-- C5 (witness): concrete instance after one `create_session`. -/
theorem claim5_witness :
    "Human:Jack:s1" ∈ subscribedChannels (create_session initState "k" "s1" "solo") :=
  (claim5_registry_iff_subscribed (create_session initState "k" "s1" "solo")
      (Reachable.step Reachable.init (Step.create initState "k" "s1" "solo" rfl))).1
    "s1" ⟨getAllowedChannels "s1" "solo", "solo"⟩ (by decide) "Human:Jack:s1" (by decide)

/-- C6 (counterexample): the relay does not enforce at-most-one-session
membership.  Socket `sockA` creates session `A` (joining its room), then
successfully joins session `B`; it remains a member of `A`'s room. -/
theorem claim6_counterexample :
    (join_session (create_session (create_session initState "sockB" "B" "solo")
        "sockA" "A" "solo") "sockA" "B").2 = true ∧
    ("sockA", "A") ∈ (join_session (create_session (create_session initState "sockB" "B" "solo")
        "sockA" "A" "solo") "sockA" "B").1.rooms ∧
    ("sockA", "B") ∈ (join_session (create_session (create_session initState "sockB" "B" "solo")
        "sockA" "A" "solo") "sockA" "B").1.rooms := by
  refine ⟨by decide, by decide, by decide⟩

/-- C6 (amended): a successful `join_session` only adds the joining
connection to the new session's room, leaving every existing membership
(including the connection's previous sessions) in place: a connection
may be a member of several sessions at once. -/
theorem claim6_amended (st : ServerState) (sockId sid : String)
    (hs : (lookupSession sid st.activeSessions).isSome = true) :
    (join_session st sockId sid).1.rooms = (sockId, sid) :: st.rooms := by
  unfold join_session
  cases h : lookupSession sid st.activeSessions with
  | none => rw [h] at hs; exact absurd hs (by simp)
  | some e => rfl

/-- C6 (witness): concrete instance of the amended claim. -/
theorem claim6_witness :
    (join_session (create_session initState "k" "B" "solo") "sockA" "B").1.rooms =
      ("sockA", "B") :: (create_session initState "k" "B" "solo").rooms :=
  claim6_amended (create_session initState "k" "B" "solo") "sockA" "B" (by decide)

/-- C7: a `join_session` for an id not in the registry answers
`success: false` and leaves the whole state (registry and member sets)
unchanged; and a `kill_session` followed immediately by a `join_session`
for the same id answers `success: false` — the session is not
resurrected. -/
theorem claim7_no_resurrection (st : ServerState) (sockId sid : String) :
    (lookupSession sid st.activeSessions = none →
      join_session st sockId sid = (st, false)) ∧
    join_session (kill_session st sid).state sockId sid =
      ((kill_session st sid).state, false) := by
  constructor
  · intro h
    unfold join_session
    rw [h]
  · unfold kill_session
    cases hl : lookupSession sid st.activeSessions with
    | none =>
      unfold join_session
      rw [hl]
    | some e =>
      unfold join_session
      show (match lookupSession sid (removeSession sid st.activeSessions) with
        | none => (_, false)
        | some _ => (_, true)) = _
      rw [lookupSession_removeSession, if_pos rfl]

/-- C7 (witness): concrete instance — killing a just-created session and
rejoining it fails. -/
theorem claim7_witness :
    join_session (kill_session (create_session initState "k" "s1" "solo") "s1").state
        "k" "s1" =
      ((kill_session (create_session initState "k" "s1" "solo") "s1").state, false) :=
  (claim7_no_resurrection (create_session initState "k" "s1" "solo") "k" "s1").2

/-- C8: channel sets of distinct session ids never intersect, for any
pair of session kinds: every channel name determines its session id. -/
theorem claim8_channel_disjoint (id1 ty1 id2 ty2 : String) (h : id1 ≠ id2) :
    getAllowedChannels id1 ty1 ∩ getAllowedChannels id2 ty2 = [] := by
  rw [List.inter_eq_nil_iff_disjoint]
  intro c hc1 hc2
  exact h (channel_sid_inj c id1 ty1 id2 ty2 hc1 hc2)

/-- C8 (witness): concrete instance. -/
theorem claim8_witness :
    getAllowedChannels "a" "Human/AI" ∩ getAllowedChannels "b" "solo" = [] :=
  claim8_channel_disjoint "a" "Human/AI" "b" "solo" (by decide)

/-- C9 (counterexample): the subscribe listener performs no parsing at
all: a bus payload that is not parseable as the envelope (here the plain
text `garbage`) is forwarded verbatim to the session's member — it is
not dropped, contradicting the claim that malformed payloads are never
forwarded to any transport connection. -/
theorem claim9_counterexample :
    deliver (create_session initState "sock1" "A" "solo") "Human:Jack:A" "garbage" =
      [("sock1", ⟨"Human:Jack:A", "garbage"⟩)] ∧
    deliver (create_session initState "sock1" "A" "solo") "Human:Jack:A" "garbage" ≠ [] := by
  refine ⟨by decide, by decide⟩

/-- C9 (amended): the listener never parses the payload, so processing
cannot raise (it is a total function) and every delivery — malformed
payloads included — carries the raw bus payload and channel name
verbatim. -/
theorem claim9_amended (st : ServerState) (c m : String) (sock : String)
    (ev : NewMessageEv) (h : (sock, ev) ∈ deliver st c m) :
    ev.message = m ∧ ev.channels = c := by
  rw [mem_deliver] at h
  obtain ⟨-, rfl⟩ := h
  exact ⟨rfl, rfl⟩

/-- C9 (witness): concrete instance of the amended claim. -/
theorem claim9_witness :
    (⟨"Human:Jack:A", "garbage"⟩ : NewMessageEv).message = "garbage" ∧
    (⟨"Human:Jack:A", "garbage"⟩ : NewMessageEv).channels = "Human:Jack:A" :=
  claim9_amended (create_session initState "sock1" "A" "solo") "Human:Jack:A" "garbage"
    "sock1" ⟨"Human:Jack:A", "garbage"⟩ (by decide)

/-- C10: after every successful `create_session`, the creating connection
is in the new session's room, so without any `join_session` it receives
the `new_message` fan-out of every channel of the session and the
`session_terminated` notification when the session is killed. -/
theorem claim10_creator_joined (st : ServerState) (sockId sid ty : String) :
    (sockId, sid) ∈ (create_session st sockId sid ty).rooms ∧
    (∀ c m, c ∈ getAllowedChannels sid ty →
      (sockId, (⟨c, m⟩ : NewMessageEv)) ∈
        deliver (create_session st sockId sid ty) c m) ∧
    sockId ∈ (kill_session (create_session st sockId sid ty) sid).notified := by
  refine ⟨List.mem_cons_self _ _, ?_, ?_⟩
  · intro c m hc
    rw [mem_deliver]
    refine ⟨⟨sid, ?_, ?_⟩, rfl⟩
    · exact List.mem_append_left _ (List.mem_map.mpr ⟨c, hc, rfl⟩)
    · exact List.mem_cons_self _ _
  · have hlk : lookupSession sid (create_session st sockId sid ty).activeSessions =
        some ⟨getAllowedChannels sid ty, ty⟩ := by
      show lookupSession sid
        ((sid, ⟨getAllowedChannels sid ty, ty⟩) :: st.activeSessions) = _
      rw [lookupSession_cons, if_pos rfl]
    unfold kill_session
    rw [hlk]
    simp [create_session, List.filter_cons]

/-- C10 (witness): concrete instance. -/
theorem claim10_witness :
    ("sock1", (⟨"Human:Jack:s1", "m"⟩ : NewMessageEv)) ∈
      deliver (create_session initState "sock1" "s1" "solo") "Human:Jack:s1" "m" :=
  (claim10_creator_joined initState "sock1" "s1" "solo").2.1 "Human:Jack:s1" "m" (by decide)

end Cotomata
